import Mathlib

/-!
Verification of the response-normalization and result layer of the
XAPIHub client (src/services/xapihub-client.ts).

Modelling conventions for the shallow embedding:

* A raw JSON field that may be absent is an `Option`.  JavaScript
  collapses `undefined` and `null` for the coalescing patterns used
  here, so both are `none`; a present value is `some`.
* The JavaScript expression `a || b` on string-valued fields is
  `jstr a b`: an absent field or the empty string (the only falsy
  string) falls through to `b`.  On number-valued fields it is
  `jnum a b` (0 is the only falsy number in range), on booleans
  `jbool a b`.
* The distinct pattern `x !== undefined ? x : true` used for the
  `first` and `last` page flags is `Option.getD`, which does NOT
  treat a present `false` as absent.
* List-envelope checks of the form `o.field && Array.isArray(o.field)`
  succeed exactly when the field holds an array (an empty array is
  truthy), so each envelope field is modelled as
  `Option (List _)` where `none` covers absent / null / non-array.
* Each facade operation is a pure function from the transport outcome
  (`TransportResult`) to an `APIResponse`; the `catch` branch of the
  source corresponds to the `.err` case.
-/

/-- JavaScript `a || b` where `a` is a possibly-absent string field:
the empty string is the only falsy string. -/
def jstr (a : Option String) (b : String) : String :=
  match a with
  | some s => if s = "" then b else s
  | none => b

/-- JavaScript `a || b` where `a` is a possibly-absent number field:
0 is the only falsy value in range. -/
def jnum (a : Option Nat) (b : Nat) : Nat :=
  match a with
  | some n => if n = 0 then b else n
  | none => b

/-- JavaScript `a || b` where `a` is a possibly-absent boolean field. -/
def jbool (a : Option Bool) (b : Bool) : Bool :=
  match a with
  | some x => if x then x else b
  | none => b

/-- JavaScript template interpolation of
`error.response?.status || 'Unknown error'` used in every catch branch. -/
def statusOrUnknown (status : Option Nat) : String :=
  match status with
  | some s => if s = 0 then "Unknown error" else toString s
  | none => "Unknown error"

/-- The information the facade reads off an AxiosError in its catch
branch: `error.message` and `error.response?.status`. -/
structure AxiosErrorInfo where
  message : String
  status : Option Nat
  deriving DecidableEq, Repr

/-- Outcome of one transport round trip: decoded body on success,
an AxiosError on network failure / timeout / non-2xx status. -/
inductive TransportResult (α : Type) where
  | ok (data : α)
  | err (e : AxiosErrorInfo)
  deriving DecidableEq, Repr

/-- The `APIResponse` record of src/types/xapihub.ts: success flag and
optional data, error and message fields. -/
structure APIResponse (α : Type) where
  success : Bool
  data : Option α
  error : Option String
  message : Option String
  deriving DecidableEq, Repr

/-- Raw user payload as read by getCurrentUser (lines 54-61).  The
source reads only `id`, `userName`, `emailAddress`, `createdOn` and
`modifiedOn`; the `username` and `email` fields may be present in the
payload but are never read. -/
structure RawUser where
  id : Option String
  userName : Option String
  username : Option String
  emailAddress : Option String
  email : Option String
  createdOn : Option String
  modifiedOn : Option String
  deriving DecidableEq, Repr

/-- Canonical user record.  `createdOn` and `modifiedOn` are copied
from the raw payload without a default (source lines 59-60), hence
they stay optional at runtime. -/
structure XAPIHubUser where
  id : String
  username : String
  email : String
  createdOn : Option String
  modifiedOn : Option String
  deriving DecidableEq, Repr

/-- User normalizer, lines 54-61 of the source. -/
def mapUser (userData : RawUser) : XAPIHubUser :=
  { id := jstr userData.id ""
  , username := jstr userData.userName ""
  , email := jstr userData.emailAddress ""
  , createdOn := userData.createdOn
  , modifiedOn := userData.modifiedOn }

/-- getCurrentUser facade, lines 44-76. -/
def getCurrentUser (t : TransportResult RawUser) : APIResponse XAPIHubUser :=
  match t with
  | .ok userData =>
    { success := true
    , data := some (mapUser userData)
    , error := none
    , message := some "User details retrieved successfully" }
  | .err e =>
    { success := false
    , data := none
    , error := some e.message
    , message := some ("Failed to get current user: " ++ statusOrUnknown e.status) }

/-- testConnection facade, lines 485-501.  It awaits getCurrentUser but
discards the result; getCurrentUser never throws (its whole body is
wrapped in try/catch), so the success branch is always taken and the
catch branch is dead code. -/
def testConnection (t : TransportResult RawUser) : APIResponse Bool :=
  let _ := getCurrentUser t
  { success := true
  , data := some true
  , error := none
  , message := some "Successfully connected to XAPIHub API" }

/-- Raw organization element, fields read on lines 104-111. -/
structure RawOrg where
  id : Option String
  name : Option String
  displayName : Option String
  description : Option String
  visibility : Option String
  organizationVisibility : Option String
  createdOn : Option String
  modifiedOn : Option String
  deriving DecidableEq, Repr

/-- Canonical organization record (src/types/xapihub.ts). -/
structure XAPIHubOrganization where
  id : String
  name : String
  description : String
  organizationVisibility : String
  createdOn : String
  modifiedOn : String
  deriving DecidableEq, Repr

/-- Organization element normalizer, lines 104-111. -/
def mapOrg (org : RawOrg) : XAPIHubOrganization :=
  { id := jstr org.id ""
  , name := jstr org.name (jstr org.displayName "")
  , description := jstr org.description ""
  , organizationVisibility :=
      jstr org.visibility (jstr org.organizationVisibility "PRIVATE")
  , createdOn := jstr org.createdOn ""
  , modifiedOn := jstr org.modifiedOn "" }

/-- Response payload for the organizations endpoint: either a bare
array or an object carrying list-valued fields.  The `content` field
may be present in a payload, but lines 93-102 of the source never
read it for organizations. -/
inductive OrgPayload where
  | arr (xs : List RawOrg)
  | obj (recentAccessedOrganizationResourceList : Option (List RawOrg))
        (organizations : Option (List RawOrg))
        (data : Option (List RawOrg))
        (content : Option (List RawOrg))
  deriving DecidableEq, Repr

/-- Envelope dispatch for organizations, lines 93-102: bare array,
then named list field, then `organizations`, then `data`; anything
else gives the empty list.  A `content` field is not consulted. -/
def extractOrgs (organizationsData : OrgPayload) : List RawOrg :=
  match organizationsData with
  | .arr xs => xs
  | .obj ral orgs dat _content =>
    match ral with
    | some xs => xs
    | none =>
      match orgs with
      | some xs => xs
      | none =>
        match dat with
        | some xs => xs
        | none => []

/-- getAccessedOrganizations facade, lines 82-126. -/
def getAccessedOrganizations (t : TransportResult OrgPayload) :
    APIResponse (List XAPIHubOrganization) :=
  match t with
  | .ok organizationsData =>
    { success := true
    , data := some ((extractOrgs organizationsData).map mapOrg)
    , error := none
    , message := some "Accessed organizations retrieved successfully" }
  | .err e =>
    { success := false
    , data := none
    , error := some e.message
    , message := some ("Failed to get accessed organizations: " ++ statusOrUnknown e.status) }

/-- Raw project element, fields read on lines 156-161 / 257-262. -/
structure RawProject where
  id : Option String
  name : Option String
  displayName : Option String
  projectName : Option String
  description : Option String
  enableKanbanBoard : Option Bool
  deriving DecidableEq, Repr

/-- Canonical project record (src/types/xapihub.ts). -/
structure XAPIHubProject where
  id : String
  name : String
  description : String
  enableKanbanBoard : Bool
  deriving DecidableEq, Repr

/-- Project element normalizer, lines 156-161 (identical on 257-262). -/
def mapProject (project : RawProject) : XAPIHubProject :=
  { id := jstr project.id ""
  , name := jstr project.name (jstr project.displayName (jstr project.projectName ""))
  , description := jstr project.description ""
  , enableKanbanBoard := jbool project.enableKanbanBoard false }

/-- Response payload for the recent-projects endpoint. -/
inductive ProjPayload where
  | arr (xs : List RawProject)
  | obj (recentAccessedProjectResourceList : Option (List RawProject))
        (projects : Option (List RawProject))
        (data : Option (List RawProject))
        (content : Option (List RawProject))
  deriving DecidableEq, Repr

/-- Envelope dispatch for recent projects, lines 143-154: bare array,
named list field, `projects`, `data`, `content`, else empty. -/
def extractProjects (projectsData : ProjPayload) : List RawProject :=
  match projectsData with
  | .arr xs => xs
  | .obj ral projs dat cont =>
    match ral with
    | some xs => xs
    | none =>
      match projs with
      | some xs => xs
      | none =>
        match dat with
        | some xs => xs
        | none =>
          match cont with
          | some xs => xs
          | none => []

/-- getRecentAccessedProjects facade, lines 132-176. -/
def getRecentAccessedProjects (_organizationId : String)
    (t : TransportResult ProjPayload) : APIResponse (List XAPIHubProject) :=
  match t with
  | .ok projectsData =>
    { success := true
    , data := some ((extractProjects projectsData).map mapProject)
    , error := none
    , message := some "Recent accessed projects retrieved successfully" }
  | .err e =>
    { success := false
    , data := none
    , error := some e.message
    , message := some ("Failed to get recent accessed projects: " ++ statusOrUnknown e.status) }

/-- Raw catalogue element, fields read on lines 333-342. -/
structure RawCatalogue where
  id : Option String
  name : Option String
  displayName : Option String
  description : Option String
  version : Option String
  status : Option String
  createdOn : Option String
  modifiedOn : Option String
  rootCollectionId : Option String
  deriving DecidableEq, Repr

/-- Canonical catalogue record. -/
structure XAPIHubCatalogue where
  id : String
  name : String
  description : String
  version : String
  status : String
  createdOn : String
  modifiedOn : String
  rootCollectionId : String
  deriving DecidableEq, Repr

/-- Catalogue element normalizer, lines 333-342. -/
def mapCatalogue (catalogue : RawCatalogue) : XAPIHubCatalogue :=
  { id := jstr catalogue.id ""
  , name := jstr catalogue.name (jstr catalogue.displayName "")
  , description := jstr catalogue.description ""
  , version := jstr catalogue.version ""
  , status := jstr catalogue.status ""
  , createdOn := jstr catalogue.createdOn ""
  , modifiedOn := jstr catalogue.modifiedOn ""
  , rootCollectionId := jstr catalogue.rootCollectionId "" }

/-- Response payload for the catalogues endpoint.  The empty object
response is `.obj none none none`. -/
inductive CatPayload where
  | arr (xs : List RawCatalogue)
  | obj (catalogues : Option (List RawCatalogue))
        (data : Option (List RawCatalogue))
        (content : Option (List RawCatalogue))
  deriving DecidableEq, Repr

/-- Envelope dispatch for catalogues, lines 322-331: bare array,
`catalogues`, `data`, `content`, else empty. -/
def extractCatalogues (cataloguesData : CatPayload) : List RawCatalogue :=
  match cataloguesData with
  | .arr xs => xs
  | .obj cats dat cont =>
    match cats with
    | some xs => xs
    | none =>
      match dat with
      | some xs => xs
      | none =>
        match cont with
        | some xs => xs
        | none => []

/-- getCatalogues facade, lines 293-357. -/
def getCatalogues (_organizationId _projectId : String)
    (t : TransportResult CatPayload) : APIResponse (List XAPIHubCatalogue) :=
  match t with
  | .ok cataloguesData =>
    { success := true
    , data := some ((extractCatalogues cataloguesData).map mapCatalogue)
    , error := none
    , message := some "Catalogues retrieved successfully" }
  | .err e =>
    { success := false
    , data := none
    , error := some e.message
    , message := some ("Failed to get catalogues: " ++ statusOrUnknown e.status) }

/-- ProjectSearchParams: `organizationId` is required, the rest are
optional with destructuring defaults (lines 184-192); a destructuring
default fires only on an absent (undefined) field, not on a falsy one. -/
structure ProjectSearchParams where
  organizationId : String
  searchString : Option String
  isAssign : Option Bool
  page : Option Nat
  size : Option Nat
  isDefault : Option Bool
  sort : Option String
  deriving DecidableEq, Repr

/-- JavaScript Boolean.toString. -/
def boolStr (b : Bool) : String := if b then "true" else "false"

/-- One HTTP request as the facade builds it: method, path, ordered
query parameters (URLSearchParams insertion order) and the JSON body
rendered as named fields. -/
structure SearchProjectsRequest where
  method : String
  path : String
  query : List (String × String)
  bodySearchString : String
  deriving DecidableEq, Repr

/-- Request construction of searchProjects, lines 184-224: effective
parameters from destructuring defaults, query string from
URLSearchParams in insertion order, POST body carrying only the
search string. -/
def searchProjectsRequest (params : ProjectSearchParams) : SearchProjectsRequest :=
  let searchString := params.searchString.getD ""
  let isAssign := params.isAssign.getD true
  let page := params.page.getD 0
  let size := params.size.getD 12
  let isDefault := params.isDefault.getD false
  let sort := params.sort.getD "name,asc"
  { method := "POST"
  , path := "/project/1.0.0/organizations/" ++ params.organizationId ++ "/projects/search"
  , query :=
      [ ("isAssign", boolStr isAssign)
      , ("page", toString page)
      , ("size", toString size)
      , ("isDefault", boolStr isDefault)
      , ("sort", sort) ]
  , bodySearchString := searchString }

/-- A paginated response payload: an object with a `content` array and
pagination metadata, a bare array, or anything else (which leaves the
initial values of lines 233-239 in place). -/
inductive PagePayload (α : Type) where
  | contentObj (content : List α) (totalElements : Option Nat)
      (totalPages : Option Nat) (size : Option Nat) (number : Option Nat)
      (first : Option Bool) (last : Option Bool)
  | arr (xs : List α)
  | other
  deriving DecidableEq, Repr

/-- Canonical page envelope (ProjectSearchResponse / APIFilterResponse). -/
structure PageResult (α : Type) where
  content : List α
  totalElements : Nat
  totalPages : Nat
  size : Nat
  number : Nat
  first : Bool
  last : Bool
  deriving DecidableEq, Repr

/-- Page normalization of searchProjects, lines 230-272: the content
branch coalesces numeric metadata with `||` (so a present 0 falls back)
and the first/last flags with an undefined-check (so a present false is
kept); a bare array synthesizes a single page; otherwise the initial
values remain. -/
def searchProjectsNormalize (page size : Nat)
    (responseData : PagePayload RawProject) : PageResult XAPIHubProject :=
  match responseData with
  | .contentObj content totalElements totalPages sz num fst lst =>
    { content := content.map mapProject
    , totalElements := jnum totalElements 0
    , totalPages := jnum totalPages 0
    , size := jnum sz size
    , number := jnum num page
    , first := fst.getD true
    , last := lst.getD true }
  | .arr xs =>
    { content := xs.map mapProject
    , totalElements := xs.length
    , totalPages := 1
    , size := size
    , number := page
    , first := true
    , last := true }
  | .other =>
    { content := []
    , totalElements := 0
    , totalPages := 0
    , size := size
    , number := page
    , first := true
    , last := true }

/-- searchProjects facade, lines 182-287. -/
def searchProjects (params : ProjectSearchParams)
    (t : TransportResult (PagePayload RawProject)) :
    APIResponse (PageResult XAPIHubProject) :=
  let page := params.page.getD 0
  let size := params.size.getD 12
  match t with
  | .ok responseData =>
    { success := true
    , data := some (searchProjectsNormalize page size responseData)
    , error := none
    , message := some "Project search completed successfully" }
  | .err e =>
    { success := false
    , data := none
    , error := some e.message
    , message := some ("Failed to search projects: " ++ statusOrUnknown e.status) }

/-- Raw API element, fields read on lines 443-455. -/
structure RawApi where
  id : Option String
  name : Option String
  displayName : Option String
  apiName : Option String
  description : Option String
  version : Option String
  status : Option String
  createdOn : Option String
  modifiedOn : Option String
  createdBy : Option String
  modifiedBy : Option String
  apiType : Option String
  type : Option String
  visibility : Option String
  deriving DecidableEq, Repr

/-- Canonical API record as mapped at runtime on lines 443-455. -/
structure XAPIHubAPI where
  id : String
  name : String
  description : String
  version : String
  status : String
  createdOn : String
  modifiedOn : String
  createdBy : String
  modifiedBy : String
  apiType : String
  visibility : String
  deriving DecidableEq, Repr

/-- API element normalizer, lines 443-455. -/
def mapApi (api : RawApi) : XAPIHubAPI :=
  { id := jstr api.id ""
  , name := jstr api.name (jstr api.displayName (jstr api.apiName ""))
  , description := jstr api.description ""
  , version := jstr api.version ""
  , status := jstr api.status ""
  , createdOn := jstr api.createdOn ""
  , modifiedOn := jstr api.modifiedOn ""
  , createdBy := jstr api.createdBy ""
  , modifiedBy := jstr api.modifiedBy ""
  , apiType := jstr api.apiType (jstr api.type "")
  , visibility := jstr api.visibility "" }

/-- APIFilterParams: four required ids, optional filter arrays and
pagination with destructuring defaults (lines 365-375). -/
structure APIFilterParams where
  organizationId : String
  projectId : String
  catalogueId : String
  collectionId : String
  creators : Option (List String)
  collections : Option (List String)
  projects : Option (List String)
  page : Option Nat
  size : Option Nat
  deriving DecidableEq, Repr

/-- Page normalization of getApiDetails, lines 416-465 (same pattern
as searchProjects with the API element mapper). -/
def apiDetailsNormalize (page size : Nat)
    (responseData : PagePayload RawApi) : PageResult XAPIHubAPI :=
  match responseData with
  | .contentObj content totalElements totalPages sz num fst lst =>
    { content := content.map mapApi
    , totalElements := jnum totalElements 0
    , totalPages := jnum totalPages 0
    , size := jnum sz size
    , number := jnum num page
    , first := fst.getD true
    , last := lst.getD true }
  | .arr xs =>
    { content := xs.map mapApi
    , totalElements := xs.length
    , totalPages := 1
    , size := size
    , number := page
    , first := true
    , last := true }
  | .other =>
    { content := []
    , totalElements := 0
    , totalPages := 0
    , size := size
    , number := page
    , first := true
    , last := true }

/-- getApiDetails facade, lines 363-480. -/
def getApiDetails (params : APIFilterParams)
    (t : TransportResult (PagePayload RawApi)) :
    APIResponse (PageResult XAPIHubAPI) :=
  let page := params.page.getD 0
  let size := params.size.getD 8
  match t with
  | .ok responseData =>
    { success := true
    , data := some (apiDetailsNormalize page size responseData)
    , error := none
    , message := some "API details retrieved successfully" }
  | .err e =>
    { success := false
    , data := none
    , error := some e.message
    , message := some ("Failed to get API details: " ++ statusOrUnknown e.status) }

/-- A canonical user record viewed again as a raw payload: the
JavaScript object has exactly the canonical field names, so the
source names `userName` and `emailAddress` are absent. -/
def userToRaw (u : XAPIHubUser) : RawUser :=
  { id := some u.id
  , userName := none
  , username := some u.username
  , emailAddress := none
  , email := some u.email
  , createdOn := u.createdOn
  , modifiedOn := u.modifiedOn }

/-- A canonical organization record viewed again as a raw payload. -/
def orgToRaw (o : XAPIHubOrganization) : RawOrg :=
  { id := some o.id
  , name := some o.name
  , displayName := none
  , description := some o.description
  , visibility := none
  , organizationVisibility := some o.organizationVisibility
  , createdOn := some o.createdOn
  , modifiedOn := some o.modifiedOn }

/-- A canonical project record viewed again as a raw payload. -/
def projectToRaw (p : XAPIHubProject) : RawProject :=
  { id := some p.id
  , name := some p.name
  , displayName := none
  , projectName := none
  , description := some p.description
  , enableKanbanBoard := some p.enableKanbanBoard }

/-- A canonical catalogue record viewed again as a raw payload. -/
def catalogueToRaw (c : XAPIHubCatalogue) : RawCatalogue :=
  { id := some c.id
  , name := some c.name
  , displayName := none
  , description := some c.description
  , version := some c.version
  , status := some c.status
  , createdOn := some c.createdOn
  , modifiedOn := some c.modifiedOn
  , rootCollectionId := some c.rootCollectionId }

/-- A canonical API record viewed again as a raw payload. -/
def apiToRaw (a : XAPIHubAPI) : RawApi :=
  { id := some a.id
  , name := some a.name
  , displayName := none
  , apiName := none
  , description := some a.description
  , version := some a.version
  , status := some a.status
  , createdOn := some a.createdOn
  , modifiedOn := some a.modifiedOn
  , createdBy := some a.createdBy
  , modifiedBy := some a.modifiedBy
  , apiType := some a.apiType
  , type := none
  , visibility := some a.visibility }

theorem jstr_none (d : String) : jstr none d = d := rfl

theorem jstr_some_empty (s : String) : jstr (some s) "" = s := by
  simp only [jstr]
  split
  next h => exact h.symm
  next => rfl

theorem jstr_some_of_ne (s d : String) (h : s ≠ "") : jstr (some s) d = s := by
  simp [jstr, h]

theorem jstr_ne_empty (o : Option String) (d : String) (hd : d ≠ "") :
    jstr o d ≠ "" := by
  cases o with
  | none => exact hd
  | some s =>
    simp only [jstr]
    split
    · exact hd
    next h => exact h

theorem jbool_some (b : Bool) : jbool (some b) false = b := by
  cases b <;> rfl

theorem mapOrg_roundtrip (o : RawOrg) : mapOrg (orgToRaw (mapOrg o)) = mapOrg o := by
  have hv : jstr o.visibility (jstr o.organizationVisibility "PRIVATE") ≠ "" :=
    jstr_ne_empty _ _ (jstr_ne_empty _ _ (by decide))
  simp only [mapOrg, orgToRaw, XAPIHubOrganization.mk.injEq]
  exact ⟨jstr_some_empty _, jstr_some_empty _, jstr_some_empty _,
    jstr_some_of_ne _ _ hv, jstr_some_empty _, jstr_some_empty _⟩

theorem mapProject_roundtrip (p : RawProject) :
    mapProject (projectToRaw (mapProject p)) = mapProject p := by
  simp only [mapProject, projectToRaw, XAPIHubProject.mk.injEq]
  exact ⟨jstr_some_empty _, jstr_some_empty _, jstr_some_empty _, jbool_some _⟩

theorem mapCatalogue_roundtrip (c : RawCatalogue) :
    mapCatalogue (catalogueToRaw (mapCatalogue c)) = mapCatalogue c := by
  simp only [mapCatalogue, catalogueToRaw, XAPIHubCatalogue.mk.injEq]
  exact ⟨jstr_some_empty _, jstr_some_empty _, jstr_some_empty _, jstr_some_empty _,
    jstr_some_empty _, jstr_some_empty _, jstr_some_empty _, jstr_some_empty _⟩

theorem mapApi_roundtrip (a : RawApi) : mapApi (apiToRaw (mapApi a)) = mapApi a := by
  simp only [mapApi, apiToRaw, XAPIHubAPI.mk.injEq]
  exact ⟨jstr_some_empty _, jstr_some_empty _, jstr_some_empty _, jstr_some_empty _,
    jstr_some_empty _, jstr_some_empty _, jstr_some_empty _, jstr_some_empty _,
    jstr_some_empty _, jstr_some_empty _, jstr_some_empty _⟩

/-- C1: on an HTTP 401 transport error, getCurrentUser returns a
Failure whose message contains 401, yet testConnection still returns
success with data true, because it discards the result of
getCurrentUser and getCurrentUser never throws; the catch branch that
would report connected false is dead code.  This evaluates the code at
the failing input of the claim. -/
theorem C1_testConnection_ignores_failure :
    (getCurrentUser (.err ⟨"Request failed with status code 401", some 401⟩)).success = false
    ∧ (getCurrentUser (.err ⟨"Request failed with status code 401", some 401⟩)).message
        = some "Failed to get current user: 401"
    ∧ testConnection (.err ⟨"Request failed with status code 401", some 401⟩)
        = { success := true
          , data := some true
          , error := none
          , message := some "Successfully connected to XAPIHub API" } := by
  refine ⟨rfl, ?_, rfl⟩
  decide

/-- C2 counterexample: a raw user payload with every field absent is
normalized inside a Success result, but the createdOn and modifiedOn
fields of the canonical User are missing (none), not a deterministic
default, because lines 59-60 copy them without coalescing. -/
theorem C2_user_timestamps_missing :
    (getCurrentUser (.ok ⟨none, none, none, none, none, none, none⟩)).success = true
    ∧ (getCurrentUser (.ok ⟨none, none, none, none, none, none, none⟩)).data
        = some ⟨"", "", "", none, none⟩ := by
  decide

/-- C2 amended: every normalizer field is total with a deterministic
default, except that the User normalizer passes createdOn and
modifiedOn through unchanged, so those two fields are absent whenever
the raw payload lacks them. -/
theorem C2_defaults (u : RawUser) (o : RawOrg) (p : RawProject)
    (c : RawCatalogue) (a : RawApi) :
    (u.userName = none → (mapUser u).username = "")
    ∧ (u.emailAddress = none → (mapUser u).email = "")
    ∧ (u.id = none → (mapUser u).id = "")
    ∧ (mapUser u).createdOn = u.createdOn
    ∧ (mapUser u).modifiedOn = u.modifiedOn
    ∧ (o.visibility = none → o.organizationVisibility = none →
        (mapOrg o).organizationVisibility = "PRIVATE")
    ∧ (o.description = none → (mapOrg o).description = "")
    ∧ (p.enableKanbanBoard = none → (mapProject p).enableKanbanBoard = false)
    ∧ (p.name = none → p.displayName = none → p.projectName = none →
        (mapProject p).name = "")
    ∧ (c.rootCollectionId = none → (mapCatalogue c).rootCollectionId = "")
    ∧ (a.apiType = none → a.type = none → (mapApi a).apiType = "")
    ∧ (a.visibility = none → (mapApi a).visibility = "") := by
  refine ⟨?_, ?_, ?_, rfl, rfl, ?_, ?_, ?_, ?_, ?_, ?_, ?_⟩ <;>
    intros <;>
    simp_all [mapUser, mapOrg, mapProject, mapCatalogue, mapApi, jstr, jbool]

/-- Witness for C2_defaults at all-absent raw records. -/
theorem C2_defaults_witness :
    (mapUser ⟨none, none, none, none, none, none, none⟩).username = ""
    ∧ (mapOrg ⟨none, none, none, none, none, none, none, none⟩).organizationVisibility
        = "PRIVATE" := by
  have h := C2_defaults ⟨none, none, none, none, none, none, none⟩
      ⟨none, none, none, none, none, none, none, none⟩
      ⟨none, none, none, none, none, none⟩
      ⟨none, none, none, none, none, none, none, none, none⟩
      ⟨none, none, none, none, none, none, none, none, none, none, none, none, none, none⟩
  exact ⟨h.1 rfl, h.2.2.2.2.2.1 rfl rfl⟩

/-- C3 counterexample: the organizations normalizer does not recognize
a content envelope, so the content variant yields the empty list while
the bare-array variant with the same underlying element does not. -/
theorem C3_org_content_not_recognized :
    getAccessedOrganizations (.ok (.obj none none none
        (some [⟨some "o1", some "Org One", none, none, none, none, none, none⟩])))
      ≠ getAccessedOrganizations (.ok (.arr
        [⟨some "o1", some "Org One", none, none, none, none, none, none⟩])) := by
  decide

/-- C3 amended: for projects and catalogues all four envelope variants
(bare array, named list field, data, content) yield the same canonical
list; for organizations the bare array, the named list field, the
organizations field and the data field agree, but a content envelope
is not consulted and yields the empty list. -/
theorem C3_envelope_variants_agree (oid pid : String)
    (os : List RawOrg) (ps : List RawProject) (cs : List RawCatalogue) :
    (getAccessedOrganizations (.ok (.obj (some os) none none none))
        = getAccessedOrganizations (.ok (.arr os))
      ∧ getAccessedOrganizations (.ok (.obj none (some os) none none))
        = getAccessedOrganizations (.ok (.arr os))
      ∧ getAccessedOrganizations (.ok (.obj none none (some os) none))
        = getAccessedOrganizations (.ok (.arr os))
      ∧ (∀ cont, getAccessedOrganizations (.ok (.obj none none none cont))
        = getAccessedOrganizations (.ok (.arr []))))
    ∧ (getRecentAccessedProjects oid (.ok (.obj (some ps) none none none))
        = getRecentAccessedProjects oid (.ok (.arr ps))
      ∧ getRecentAccessedProjects oid (.ok (.obj none (some ps) none none))
        = getRecentAccessedProjects oid (.ok (.arr ps))
      ∧ getRecentAccessedProjects oid (.ok (.obj none none (some ps) none))
        = getRecentAccessedProjects oid (.ok (.arr ps))
      ∧ getRecentAccessedProjects oid (.ok (.obj none none none (some ps)))
        = getRecentAccessedProjects oid (.ok (.arr ps)))
    ∧ (getCatalogues oid pid (.ok (.obj (some cs) none none))
        = getCatalogues oid pid (.ok (.arr cs))
      ∧ getCatalogues oid pid (.ok (.obj none (some cs) none))
        = getCatalogues oid pid (.ok (.arr cs))
      ∧ getCatalogues oid pid (.ok (.obj none none (some cs)))
        = getCatalogues oid pid (.ok (.arr cs))) :=
  ⟨⟨rfl, rfl, rfl, fun _ => rfl⟩, ⟨rfl, rfl, rfl, rfl⟩, ⟨rfl, rfl, rfl⟩⟩

/-- C4 counterexample: a payload carrying only the username and email
field names normalizes both to the empty string, because lines 57-58
read only userName and emailAddress. -/
theorem C4_username_variant_dropped :
    (mapUser ⟨none, none, some "bob", none, some "bob@example.com", none, none⟩).username = ""
    ∧ (mapUser ⟨none, none, some "bob", none, some "bob@example.com", none, none⟩).username ≠ "bob"
    ∧ (mapUser ⟨none, none, some "bob", none, some "bob@example.com", none, none⟩).email = ""
    ∧ (mapUser ⟨none, none, some "bob", none, some "bob@example.com", none, none⟩).email
        ≠ "bob@example.com" := by
  decide

/-- C4 amended: user normalization reads only userName and
emailAddress — the raw username and email fields are ignored entirely —
with the empty string as default when the read field is absent, and the
field value itself when present and nonempty. -/
theorem C4_user_naming (u : RawUser) (v w : Option String) :
    mapUser { u with username := v, email := w } = mapUser u
    ∧ (u.userName = none → (mapUser u).username = "")
    ∧ (u.emailAddress = none → (mapUser u).email = "")
    ∧ (∀ s, u.userName = some s → s ≠ "" → (mapUser u).username = s)
    ∧ (∀ s, u.emailAddress = some s → s ≠ "" → (mapUser u).email = s) := by
  refine ⟨rfl, ?_, ?_, ?_, ?_⟩ <;> intros <;> simp_all [mapUser, jstr]

/-- Witness for C4_user_naming. -/
theorem C4_user_naming_witness :
    mapUser ⟨none, some "alice", some "bob", none, none, none, none⟩
      = mapUser ⟨none, some "alice", none, none, none, none, none⟩
    ∧ (mapUser ⟨none, some "alice", none, none, none, none, none⟩).username = "alice" := by
  have h := C4_user_naming ⟨none, some "alice", none, none, none, none, none⟩
      (some "bob") none
  exact ⟨h.1, h.2.2.2.1 "alice" rfl (by decide)⟩

/-- C5: every facade operation maps a transport error to a Failure
carrying the underlying error message and the message Failed to
(operation) followed by the HTTP status when one is available and
Unknown error otherwise; no exception escapes, since each operation is
a total function into APIResponse. -/
theorem C5_transport_failure (e : AxiosErrorInfo) (p : ProjectSearchParams)
    (q : APIFilterParams) (oid pid : String) :
    getCurrentUser (.err e)
      = ⟨false, none, some e.message,
          some ("Failed to get current user: " ++ statusOrUnknown e.status)⟩
    ∧ getAccessedOrganizations (.err e)
      = ⟨false, none, some e.message,
          some ("Failed to get accessed organizations: " ++ statusOrUnknown e.status)⟩
    ∧ getRecentAccessedProjects oid (.err e)
      = ⟨false, none, some e.message,
          some ("Failed to get recent accessed projects: " ++ statusOrUnknown e.status)⟩
    ∧ searchProjects p (.err e)
      = ⟨false, none, some e.message,
          some ("Failed to search projects: " ++ statusOrUnknown e.status)⟩
    ∧ getCatalogues oid pid (.err e)
      = ⟨false, none, some e.message,
          some ("Failed to get catalogues: " ++ statusOrUnknown e.status)⟩
    ∧ getApiDetails q (.err e)
      = ⟨false, none, some e.message,
          some ("Failed to get API details: " ++ statusOrUnknown e.status)⟩
    ∧ (∀ s, e.status = some s → s ≠ 0 → statusOrUnknown e.status = toString s)
    ∧ (e.status = none → statusOrUnknown e.status = "Unknown error") := by
  refine ⟨rfl, rfl, rfl, rfl, rfl, rfl, ?_, ?_⟩
  · intro s hs h0
    simp [statusOrUnknown, hs, h0]
  · intro hs
    simp [statusOrUnknown, hs]

/-- Witness for C5_transport_failure: a 503 response renders its
status, a statusless network error renders Unknown error, and the
facade reports failure. -/
theorem C5_transport_failure_witness :
    statusOrUnknown (some 503) = "503"
    ∧ statusOrUnknown none = "Unknown error"
    ∧ (getCurrentUser (.err ⟨"timeout of 30000ms exceeded", none⟩)).success = false := by
  have h1 := C5_transport_failure ⟨"timeout of 30000ms exceeded", none⟩
      ⟨"o", none, none, none, none, none, none⟩
      ⟨"o", "p", "c", "r", none, none, none, none, none⟩ "o" "p"
  have h2 := C5_transport_failure ⟨"Request failed with status code 503", some 503⟩
      ⟨"o", none, none, none, none, none, none⟩
      ⟨"o", "p", "c", "r", none, none, none, none, none⟩ "o" "p"
  refine ⟨h2.2.2.2.2.2.2.1 503 rfl (by decide), h1.2.2.2.2.2.2.2 rfl, ?_⟩
  rw [h1.1]

/-- C6: for both page-returning operations, a bare-array payload of
length N synthesizes a page with totalElements N, totalPages 1, first
and last true, and size and number equal to the caller-supplied or
defaulted size and page. -/
theorem C6_bare_array_page (p : ProjectSearchParams) (q : APIFilterParams)
    (xs : List RawProject) (ys : List RawApi) :
    (searchProjects p (.ok (.arr xs))).data
      = some { content := xs.map mapProject
             , totalElements := xs.length
             , totalPages := 1
             , size := p.size.getD 12
             , number := p.page.getD 0
             , first := true
             , last := true }
    ∧ (getApiDetails q (.ok (.arr ys))).data
      = some { content := ys.map mapApi
             , totalElements := ys.length
             , totalPages := 1
             , size := q.size.getD 8
             , number := q.page.getD 0
             , first := true
             , last := true } :=
  ⟨rfl, rfl⟩

/-- C7: every list-returning operation maps a payload matching no
recognized envelope variant to Success with the empty canonical list;
for catalogues this covers the empty-object response, and for
organizations even a payload whose only array sits under content. -/
theorem C7_unrecognized_envelope_empty (oid pid : String)
    (cont : Option (List RawOrg)) :
    getAccessedOrganizations (.ok (.obj none none none cont))
      = ⟨true, some [], none, some "Accessed organizations retrieved successfully"⟩
    ∧ getRecentAccessedProjects oid (.ok (.obj none none none none))
      = ⟨true, some [], none, some "Recent accessed projects retrieved successfully"⟩
    ∧ getCatalogues oid pid (.ok (.obj none none none))
      = ⟨true, some [], none, some "Catalogues retrieved successfully"⟩ :=
  ⟨rfl, rfl, rfl⟩

/-- C8: searchProjects invoked with only organizationId uses the
effective defaults searchString empty, isAssign true, page 0, size 12,
isDefault false, sort name-ascending, and builds the one POST request
with exactly those five query parameters in insertion order and a body
carrying only the empty search string. -/
theorem C8_search_projects_defaults (oid : String) :
    searchProjectsRequest ⟨oid, none, none, none, none, none, none⟩
      = { method := "POST"
        , path := "/project/1.0.0/organizations/" ++ oid ++ "/projects/search"
        , query := [ ("isAssign", "true"), ("page", "0"), ("size", "12")
                   , ("isDefault", "false"), ("sort", "name,asc") ]
        , bodySearchString := "" } := by
  have h : searchProjectsRequest ⟨oid, none, none, none, none, none, none⟩
      = { method := "POST"
        , path := "/project/1.0.0/organizations/" ++ oid ++ "/projects/search"
        , query := [ ("isAssign", boolStr true), ("page", toString (0 : Nat))
                   , ("size", toString (12 : Nat)), ("isDefault", boolStr false)
                   , ("sort", "name,asc") ]
        , bodySearchString := "" } := rfl
  rw [h]
  simp only [SearchProjectsRequest.mk.injEq]
  refine ⟨trivial, trivial, ?_, trivial⟩
  decide

/-- C9 counterexample: re-normalizing a canonical user record does not
give the record back — the username collapses to the empty string,
because the normalizer reads userName while the canonical record
carries the value under username. -/
theorem C9_user_not_idempotent :
    mapUser (userToRaw (mapUser
        ⟨some "u1", some "alice", none, some "a@b.io", none, some "t1", some "t2"⟩))
      ≠ mapUser ⟨some "u1", some "alice", none, some "a@b.io", none, some "t1", some "t2"⟩ := by
  decide

/-- C9 amended: normalization is idempotent for organizations,
projects, catalogues and API resources — re-normalizing a normalized
record yields the same record — but not for users: re-normalizing any
canonical user record erases username and email, since the canonical
field names differ from the source names the normalizer reads. -/
theorem C9_idempotence (o : RawOrg) (p : RawProject) (c : RawCatalogue)
    (a : RawApi) (u : XAPIHubUser) :
    mapOrg (orgToRaw (mapOrg o)) = mapOrg o
    ∧ mapProject (projectToRaw (mapProject p)) = mapProject p
    ∧ mapCatalogue (catalogueToRaw (mapCatalogue c)) = mapCatalogue c
    ∧ mapApi (apiToRaw (mapApi a)) = mapApi a
    ∧ (mapUser (userToRaw u)).username = ""
    ∧ (mapUser (userToRaw u)).email = "" :=
  ⟨mapOrg_roundtrip o, mapProject_roundtrip p, mapCatalogue_roundtrip c,
    mapApi_roundtrip a, rfl, rfl⟩

/-- C10 counterexample: a page envelope whose first flag is present
with value false keeps false, while the same envelope with the flag
absent gets the default true — a present falsy value is not treated
like an absent one for the first and last flags, which are read with
an undefined-check rather than with falsy coalescing. -/
theorem C10_first_flag_keeps_false :
    (searchProjectsNormalize 0 12
        (.contentObj [] none none none none (some false) none)).first = false
    ∧ (searchProjectsNormalize 0 12
        (.contentObj [] none none none none none none)).first = true := by
  decide

/-- C10 amended: falsy coalescing holds for the fields read with the
or-operator — an empty-string visibility falls through to PRIVATE, and
a page size or number present with value 0 falls back to the
caller-requested size and page — but the boolean first and last page
flags keep a present false. -/
theorem C10_falsy_coalescing (o : RawOrg) (page size : Nat)
    (cp : List RawProject) (ca : List RawApi)
    (te tp : Option Nat) (lst : Option Bool) (b : Bool) :
    (o.visibility = some "" → o.organizationVisibility = none →
        (mapOrg o).organizationVisibility = "PRIVATE")
    ∧ (o.visibility = some "" → o.organizationVisibility = some "" →
        (mapOrg o).organizationVisibility = "PRIVATE")
    ∧ (searchProjectsNormalize page size
        (.contentObj cp te tp (some 0) (some 0) none none)).size = size
    ∧ (searchProjectsNormalize page size
        (.contentObj cp te tp (some 0) (some 0) none none)).number = page
    ∧ (apiDetailsNormalize page size
        (.contentObj ca te tp (some 0) (some 0) none none)).size = size
    ∧ (apiDetailsNormalize page size
        (.contentObj ca te tp (some 0) (some 0) none none)).number = page
    ∧ (searchProjectsNormalize page size
        (.contentObj cp te tp none none (some b) lst)).first = b := by
  refine ⟨?_, ?_, rfl, rfl, rfl, rfl, rfl⟩ <;>
    intros <;> simp_all [mapOrg, jstr]

/-- Witness for C10_falsy_coalescing at a concrete organization with
an empty-string visibility and a page envelope with size zero. -/
theorem C10_falsy_coalescing_witness :
    (mapOrg ⟨none, none, none, none, some "", none, none, none⟩).organizationVisibility
      = "PRIVATE"
    ∧ (searchProjectsNormalize 2 24
        (.contentObj [] none none (some 0) (some 0) none none)).size = 24 := by
  have h := C10_falsy_coalescing ⟨none, none, none, none, some "", none, none, none⟩
      2 24 [] [] none none none true
  exact ⟨h.1 rfl rfl, h.2.2.1⟩
